import Mathlib

/-
Shallow embedding of the plugin context layer of the IBM Cloud CLI SDK
(package `plugin`: `plugin_context.go` and the plugin metadata declarations).

Pure Go functions become Lean functions; the mutable persisted configuration
becomes explicit state passing (a record in, a record out); the external
HTTP token-exchange collaborator and the process environment become
parameters of the operations that consult them.  Go `int` is modelled as
`Int` with the explicit 64-bit clamping that `strconv.Atoi` performs on
range overflow.
-/

namespace Plugin

/-! ### Models of the Go standard library functions the source calls -/

/-- Model of `strings.Split(s, sep)` for a one-character separator, on the
character list: `[]` yields the single empty segment, matching Go's
behaviour of returning one (possibly empty) segment more than the number of
separators. -/
def splitOnChar (sep : Char) : List Char → List (List Char)
  | [] => [[]]
  | c :: rest =>
    if c = sep then [] :: splitOnChar sep rest
    else
      match splitOnChar sep rest with
      | [] => [[c]]
      | s :: ss => (c :: s) :: ss

/-- Model of `strings.Split(s, sep)` for a one-character separator,
producing strings. -/
def strings_Split (s : String) (sep : Char) : List String :=
  (splitOnChar sep s.data).map fun cs => String.mk cs

/-- Accumulator loop of decimal parsing: fails on the first non-digit
character, as Go's `strconv` digit loop does. -/
def digitsToNatAux (acc : Nat) : List Char → Option Nat
  | [] => some acc
  | c :: rest =>
    if c.isDigit then digitsToNatAux (acc * 10 + (c.toNat - 48)) rest
    else none

/-- Decimal value of a non-empty all-digit character list; `none` on the
empty list or on any non-digit character (Go's syntax error). -/
def digitsToNat : List Char → Option Nat
  | [] => none
  | cs => digitsToNatAux 0 cs

/-- Sign handling of `strconv.Atoi`/`ParseInt`: an optional leading `-` or
`+` is stripped, and the boolean records whether the value is negated. -/
def stripSign : List Char → Bool × List Char
  | '-' :: rest => (true, rest)
  | '+' :: rest => (false, rest)
  | s => (false, s)

def maxInt64 : Int := 2 ^ 63 - 1

def minInt64 : Int := -(2 ^ 63)

/-- Model of `strconv.Atoi(s)` on a 64-bit platform: `(value, ok)` where
`ok = (err == nil)`.  A syntax error (empty digits or a non-digit) yields
`(0, false)`; a range overflow yields the clamped bound with `false`, as
`ParseInt` does; otherwise the parsed value with `true`. -/
def strconv_Atoi (s : String) : Int × Bool :=
  let sn := stripSign s.data
  match digitsToNat sn.2 with
  | none => (0, false)
  | some n =>
    let v : Int := if sn.1 then -(n : Int) else (n : Int)
    if v > maxInt64 then (maxInt64, false)
    else if v < minInt64 then (minInt64, false)
    else (v, true)

/-- A segment is numeric when it is an optional sign followed by one or
more digits — exactly the inputs on which `strconv.Atoi` raises no syntax
error (range overflow still counts as numeric in form). -/
def isNumericSeg (s : String) : Bool :=
  (digitsToNat (stripSign s.data).2).isSome

/-- Model of `unicode.IsSpace`: the Unicode White_Space property, the
character set `strings.TrimSpace` trims. -/
def go_IsSpace (c : Char) : Bool :=
  let n := c.toNat
  (9 ≤ n && n ≤ 13) || n == 32 || n == 133 || n == 160 || n == 5760 ||
    (8192 ≤ n && n ≤ 8202) || n == 8232 || n == 8233 || n == 8239 ||
    n == 8287 || n == 12288

def dropLeadingSpace : List Char → List Char
  | [] => []
  | c :: rest => if go_IsSpace c then dropLeadingSpace rest else c :: rest

/-- Model of `strings.TrimSpace(s)`: leading and trailing white space
removed. -/
def strings_TrimSpace (s : String) : String :=
  String.mk ((dropLeadingSpace (dropLeadingSpace s.data).reverse).reverse)

/-- Model of `strings.Join(elems, sep)`. -/
def strings_Join : List String → String → String
  | [], _ => ""
  | [s], _ => s
  | s :: rest, sep => s ++ sep ++ strings_Join rest sep

/-! ### The process environment

`os.Getenv` returns `""` for an unset variable.  The environment is kept
as `String → Option String` so that an unset variable (`none`) and one set
to the empty string (`some ""`) are distinct states; `os_Getenv` conflates
them exactly as Go does. -/

def Env : Type := String → Option String

/-- Model of `os.Getenv(key)` over an explicit environment. -/
def os_Getenv (env : Env) (key : String) : String :=
  (env key).getD ""

/-! ### The persisted configuration and the external collaborators

Modelled from the spec: the persisted configuration store
(`core_config.ReadWriter` and its nested CF configuration) is an external
collaborator not under the sources here; per the spec it is "a read/write
view" onto the session fields, so its getters and setters are plain field
reads and functional field updates on explicit records. -/

/-- Modelled from the spec: the CF-scoped persisted session fields
(`core_config.CFConfig`) that the CF credential context reads and
writes. -/
structure CFConfig where
  apiEndpoint : String
  authenticationEndpoint : String
  uaaToken : String
  uaaRefreshToken : String
deriving DecidableEq

/-- Modelled from the spec: `HasAPIEndpoint` of the CF configuration is
"true iff the API endpoint is a non-empty string". -/
def CFConfig.HasAPIEndpoint (c : CFConfig) : Bool :=
  c.apiEndpoint != ""

/-- Modelled from the spec: pass-through read of the CF API endpoint. -/
def CFConfig.APIEndpoint (c : CFConfig) : String :=
  c.apiEndpoint

/-- Modelled from the spec: the top-level persisted configuration fields
(`core_config.ReadWriter`) the plugin context reads and writes, with the
nested CF-scoped configuration. -/
structure CoreConfig where
  apiEndpoint : String
  sdkVersion : String
  iamEndpoint : String
  iamToken : String
  iamRefreshToken : String
  trace : String
  colorEnabled : String
  cf : CFConfig
deriving DecidableEq

/-- Modelled from the spec: the token pair the HTTP/auth collaborator's
exchange returns — "(token, refreshToken, error)"; `accessToken` is what
the Go `Token()` accessor yields. -/
structure Token where
  accessToken : String
  refreshToken : String
deriving DecidableEq

/-- The external token-exchange collaborator: from an endpoint
configuration string and the stored refresh token, a new token pair or an
authentication error. -/
def Exchange : Type := String → String → Except String Token

/-- Errors of the refresh operations, tagged by origin: `config` for the
descriptive precondition errors this layer creates with `fmt.Errorf`, and
`auth` for an error propagated unchanged from the exchange collaborator. -/
inductive RefreshErr where
  | config (msg : String)
  | auth (msg : String)
deriving DecidableEq

/-! ### The CF credential context (`cfConfigWrapper`) -/

/-- Embedding of `cfConfigWrapper.RefreshUAAToken`: precondition check on
the CF API endpoint, exchange of the stored UAA refresh token at the
authentication endpoint, and on success the write-back of both new
tokens.  Returns the Go result paired with the updated configuration. -/
def RefreshUAAToken (ex : Exchange) (c : CFConfig) :
    Except RefreshErr String × CFConfig :=
  if !c.HasAPIEndpoint then
    (Except.error (RefreshErr.config "CloudFoundry API endpoint is not set"), c)
  else
    match ex c.authenticationEndpoint c.uaaRefreshToken with
    | Except.error e => (Except.error (RefreshErr.auth e), c)
    | Except.ok tok =>
      (Except.ok tok.accessToken,
        { c with uaaToken := tok.accessToken, uaaRefreshToken := tok.refreshToken })

/-! ### The version comparator -/

/-- The loop body of `compareVersion`: `var p1 int` stays `0` when the
index is past the end of the segment list, else takes the `Atoi` value
with the error ignored. -/
def segmentValue (s : List String) (i : Nat) : Int :=
  match s.get? i with
  | some seg => (strconv_Atoi seg).1
  | none => 0

/-- The `for i := 0; i < n; i++` loop of `compareVersion`, with the
remaining iteration count made structural: the first index whose segment
values differ decides `1` or `-1`, and exhausting the loop yields `0`. -/
def compareLoop (s1 s2 : List String) (i : Nat) : Nat → Int
  | 0 => 0
  | k + 1 =>
    let p1 := segmentValue s1 i
    let p2 := segmentValue s2 i
    if p1 > p2 then 1
    else if p1 < p2 then -1
    else compareLoop s1 s2 (i + 1) k

/-- Embedding of `compareVersion(v1, v2)`: split both on `"."`, iterate to
the longer length (the shorter side reads as zero past its end), compare
segment values left to right. -/
def compareVersion (v1 v2 : String) : Int :=
  let s1 := strings_Split v1 '.'
  let s2 := strings_Split v2 '.'
  let n := if s2.length > s1.length then s2.length else s1.length
  compareLoop s1 s2 0 n

/-! ### The plugin context facade (`pluginContext`) -/

/-- Embedding of `pluginContext.APIEndpoint`: version-gated resolution —
the CF-scoped endpoint for an SDK version strictly below `"0.1.1"`, the
top-level platform endpoint otherwise. -/
def pluginContext.APIEndpoint (c : CoreConfig) : String :=
  if compareVersion c.sdkVersion "0.1.1" < 0 then c.cf.APIEndpoint
  else c.apiEndpoint

/-- Embedding of `pluginContext.HasAPIEndpoint`: the version-gated
endpoint compared against the empty string. -/
def pluginContext.HasAPIEndpoint (c : CoreConfig) : Bool :=
  pluginContext.APIEndpoint c != ""

/-- The endpoint resolution step of `RefreshIAMToken`: the `IAM_ENDPOINT`
environment variable when non-empty, else the persisted IAM endpoint. -/
def resolveIAMEndpoint (env : Env) (c : CoreConfig) : String :=
  let endpoint := os_Getenv env "IAM_ENDPOINT"
  if endpoint = "" then c.iamEndpoint else endpoint

/-- The exchange-and-store tail of `RefreshIAMToken`, reached once a
non-empty endpoint is resolved: exchange the stored IAM refresh token at
the given token endpoint; on success store both new tokens. -/
def iamTokenExchange (ex : Exchange) (tokenEndpoint : String) (c : CoreConfig) :
    Except RefreshErr String × CoreConfig :=
  match ex tokenEndpoint c.iamRefreshToken with
  | Except.error e => (Except.error (RefreshErr.auth e), c)
  | Except.ok tok =>
    (Except.ok tok.accessToken,
      { c with iamToken := tok.accessToken, iamRefreshToken := tok.refreshToken })

/-- Embedding of `pluginContext.RefreshIAMToken`: resolve the endpoint
(environment override first), fail when neither source yields one, else
exchange at the resolved endpoint with the fixed `"/identity/token"`
suffix appended. -/
def RefreshIAMToken (env : Env) (ex : Exchange) (c : CoreConfig) :
    Except RefreshErr String × CoreConfig :=
  let endpoint := resolveIAMEndpoint env c
  if endpoint = "" then
    (Except.error (RefreshErr.config "IAM endpoint is not set"), c)
  else iamTokenExchange ex (endpoint ++ "/identity/token") c

/-- Modelled from the spec: the fixed environment-variable key constant
`consts.ENV_BLUEMIX_TRACE` (the consts package is not under the sources
here); the claims depend only on it being a fixed key. -/
def ENV_BLUEMIX_TRACE : String := "BLUEMIX_TRACE"

/-- Modelled from the spec: the fixed environment-variable key constant
`consts.ENV_BLUEMIX_COLOR`. -/
def ENV_BLUEMIX_COLOR : String := "BLUEMIX_COLOR"

/-- Embedding of `getFromEnvOrConfig`: the environment variable's value
when it is set to a non-empty string, else the configuration value. -/
def getFromEnvOrConfig (env : Env) (envKey config : String) : String :=
  let envVal := os_Getenv env envKey
  if envVal ≠ "" then envVal else config

/-- Embedding of `pluginContext.Trace`: environment override over the
persisted trace value. -/
def pluginContext.Trace (env : Env) (c : CoreConfig) : String :=
  getFromEnvOrConfig env ENV_BLUEMIX_TRACE c.trace

/-- Embedding of `pluginContext.ColorEnabled`: environment override over
the persisted color setting. -/
def pluginContext.ColorEnabled (env : Env) (c : CoreConfig) : String :=
  getFromEnvOrConfig env ENV_BLUEMIX_COLOR c.colorEnabled

/-! ### Plugin metadata declarations (package `plugin`) -/

/-- Embedding of `Flag`: a command option descriptor. -/
structure Flag where
  Name : String
  Description : String
  HasValue : Bool
  Hidden : Bool
deriving DecidableEq

/-- Embedding of `Command`: a plugin command descriptor. -/
structure Command where
  Namespace : String
  Name : String
  Alias : String
  Description : String
  Usage : String
  Flags : List Flag
  Hidden : Bool
deriving DecidableEq

/-- Embedding of `Command.FullName`: the namespace and name joined with a
space, surrounding white space trimmed. -/
def Command.FullName (c : Command) : String :=
  strings_TrimSpace (strings_Join [c.Namespace, c.Name] " ")

/-- Embedding of `Command.FullNames`: the full name, followed by the
namespace-qualified alias when the alias is non-empty. -/
def Command.FullNames (c : Command) : List String :=
  let names := [c.FullName]
  if c.Alias != "" then
    names ++ [strings_TrimSpace (strings_Join [c.Namespace, c.Alias] " ")]
  else names

/-! ### Sample inputs for concrete instantiations -/

/-- An environment with no variable set. -/
def envEmpty : Env := fun _ => none

/-- An exchange collaborator that always fails. -/
def exFail : Exchange := fun _ _ => Except.error "boom"

/-- An exchange collaborator that always succeeds with a fixed pair. -/
def exOk : Exchange := fun _ _ => Except.ok ⟨"newtok", "newref"⟩

/-- A fully populated sample configuration. -/
def cfgSample : CoreConfig :=
  ⟨"plat", "0.1.1", "iam.test", "iamtok", "iamref", "", "",
    ⟨"cfapi", "auth.test", "uaatok", "uaaref"⟩⟩

/-- A sample CF configuration with no API endpoint targeted. -/
def cfNoEndpoint : CFConfig := ⟨"", "auth.test", "uaatok", "uaaref"⟩

/-! ### Helper lemmas -/

/-- Running the comparison loop of `compareVersion` on one list against
itself yields `0` from any index, for any iteration count. -/
theorem compareLoop_self (s : List String) (k : Nat) :
    ∀ i, compareLoop s s i k = 0 := by
  induction k with
  | zero => intro i; rfl
  | succ k ih =>
    intro i
    simp only [compareLoop, gt_iff_lt, lt_self_iff_false, if_false]
    exact ih (i + 1)

/-- The comparator is reflexive on every version string. -/
theorem compareVersion_self (v : String) : compareVersion v v = 0 :=
  compareLoop_self _ _ 0

/-- Unfolding of `compareVersion` to its loop. -/
theorem compareVersion_eq (v1 v2 : String) :
    compareVersion v1 v2 =
      compareLoop (strings_Split v1 '.') (strings_Split v2 '.') 0
        (if (strings_Split v2 '.').length > (strings_Split v1 '.').length
          then (strings_Split v2 '.').length else (strings_Split v1 '.').length) :=
  rfl

/-- A segment on which `strconv.Atoi` raises a syntax error parses as the
value `0`, with the error discarded by `compareVersion`. -/
theorem atoi_nonNumeric (s : String) (h : isNumericSeg s = false) :
    strconv_Atoi s = (0, false) := by
  unfold isNumericSeg at h
  unfold strconv_Atoi
  cases hd : digitsToNat (stripSign s.data).2 with
  | none => simp [hd]
  | some n => rw [hd] at h; simp at h

/-- When every segment of a list is non-numeric, every loop index reads
the value `0` (in range by `atoi_nonNumeric`, out of range by the unset
default). -/
theorem segmentValue_zero (s : List String)
    (h : ∀ seg ∈ s, isNumericSeg seg = false) (i : Nat) :
    segmentValue s i = 0 := by
  unfold segmentValue
  cases hg : s.get? i with
  | none => rfl
  | some seg =>
    have hm : seg ∈ s := List.get?_mem hg
    simp [atoi_nonNumeric seg (h seg hm)]

/-- A left-hand list all of whose indices read `0`, compared against the
segments of `"0.1.1"` for at least two iterations, loses at index 1. -/
theorem compareLoop_zero_011 (s : List String) (h : ∀ i, segmentValue s i = 0) :
    ∀ n, 2 ≤ n → compareLoop s ["0", "1", "1"] 0 n = -1 := by
  intro n hn
  obtain ⟨k, rfl⟩ : ∃ k, n = k + 2 := ⟨n - 2, by omega⟩
  have e0 : segmentValue ["0", "1", "1"] 0 = 0 := by decide
  have e1 : segmentValue ["0", "1", "1"] 1 = 1 := by decide
  simp [compareLoop, h 0, h 1, e0, e1]

/-- A version string all of whose dot-separated segments are non-numeric
compares strictly below `"0.1.1"`. -/
theorem compareVersion_nonNumeric (v : String)
    (h : ∀ seg ∈ strings_Split v '.', isNumericSeg seg = false) :
    compareVersion v "0.1.1" < 0 := by
  have hz : ∀ i, segmentValue (strings_Split v '.') i = 0 :=
    fun i => segmentValue_zero _ h i
  have hs2 : strings_Split "0.1.1" '.' = ["0", "1", "1"] := by decide
  rw [compareVersion_eq, hs2]
  have hlen : (["0", "1", "1"] : List String).length = 3 := rfl
  rw [compareLoop_zero_011 _ hz _ (by rw [hlen]; split <;> omega)]
  decide

/-! ### The claims -/

/-- C1: `pluginContext.APIEndpoint` is version-gated: the CF-scoped
endpoint whenever the stored SDK version compares strictly below
`"0.1.1"` under the comparator, the top-level platform endpoint
otherwise; a version of `"0.1.0"` receives the CF-scoped value and
`"0.1.1"` or higher (comparator at least `0`) receives the platform
value. -/
theorem apiEndpoint_version_gated (c : CoreConfig) :
    (compareVersion c.sdkVersion "0.1.1" < 0 →
      pluginContext.APIEndpoint c = c.cf.apiEndpoint) ∧
    (0 ≤ compareVersion c.sdkVersion "0.1.1" →
      pluginContext.APIEndpoint c = c.apiEndpoint) ∧
    (c.sdkVersion = "0.1.0" → pluginContext.APIEndpoint c = c.cf.apiEndpoint) ∧
    (c.sdkVersion = "0.1.1" → pluginContext.APIEndpoint c = c.apiEndpoint) := by
  refine ⟨fun h => ?_, fun h => ?_, fun h => ?_, fun h => ?_⟩
  · simp [pluginContext.APIEndpoint, CFConfig.APIEndpoint, h]
  · simp [pluginContext.APIEndpoint, Int.not_lt.mpr h]
  · have hlt : compareVersion c.sdkVersion "0.1.1" < 0 := by rw [h]; decide
    simp [pluginContext.APIEndpoint, CFConfig.APIEndpoint, hlt]
  · have hge : ¬ compareVersion c.sdkVersion "0.1.1" < 0 := by rw [h]; decide
    simp [pluginContext.APIEndpoint, hge]

/-- C2: the comparator splits on `"."`, pads the shorter side with
zero-valued segments, parses a non-numeric segment as `0` with no error
surfaced, decides by the first differing segment, and returns `0` when
all compared segments agree: it is reflexive, and the concrete examples
evaluate as the spec states. -/
theorem compareVersion_spec (v seg : String) :
    compareVersion v v = 0 ∧
    (isNumericSeg seg = false → strconv_Atoi seg = (0, false)) ∧
    compareVersion "0.1.1" "0.1.1" = 0 ∧
    compareVersion "0.1.1.0" "0.1.1" = 0 ∧
    compareVersion "0.1.0" "0.1.1" = -1 ∧
    compareVersion "1.0" "0.9.9" = 1 :=
  ⟨compareVersion_self v, atoi_nonNumeric seg,
    by decide, by decide, by decide, by decide⟩

/-- C3: when the external token exchange fails, `RefreshIAMToken` and
`RefreshUAAToken` both return the underlying authentication error
unchanged and leave the whole stored configuration — in particular every
token field — exactly as it was. -/
theorem refresh_failure_preserves_state (env : Env) (ex : Exchange)
    (c : CoreConfig) (e : String)
    (hIam : resolveIAMEndpoint env c ≠ "")
    (hexIam : ex (resolveIAMEndpoint env c ++ "/identity/token")
      c.iamRefreshToken = Except.error e)
    (hUaa : c.cf.apiEndpoint ≠ "")
    (hexUaa : ex c.cf.authenticationEndpoint c.cf.uaaRefreshToken
      = Except.error e) :
    RefreshIAMToken env ex c = (Except.error (RefreshErr.auth e), c) ∧
    RefreshUAAToken ex c.cf = (Except.error (RefreshErr.auth e), c.cf) := by
  constructor
  · simp [RefreshIAMToken, hIam, iamTokenExchange, hexIam]
  · simp [RefreshUAAToken, CFConfig.HasAPIEndpoint, hUaa, hexUaa]

/-- C3 witness: a failing exchange against the sample configuration
leaves it untouched and surfaces the error. -/
theorem refresh_failure_preserves_state_witness :
    RefreshIAMToken envEmpty exFail cfgSample
      = (Except.error (RefreshErr.auth "boom"), cfgSample) ∧
    RefreshUAAToken exFail cfgSample.cf
      = (Except.error (RefreshErr.auth "boom"), cfgSample.cf) :=
  refresh_failure_preserves_state envEmpty exFail cfgSample "boom"
    (by decide) rfl (by decide) rfl

/-- C4: when the external token exchange succeeds, `RefreshIAMToken` and
`RefreshUAAToken` both write the new access token and the new refresh
token into the configuration and return the new access token with no
error. -/
theorem refresh_success_updates_tokens (env : Env) (ex : Exchange)
    (c : CoreConfig) (tok : Token)
    (hIam : resolveIAMEndpoint env c ≠ "")
    (hexIam : ex (resolveIAMEndpoint env c ++ "/identity/token")
      c.iamRefreshToken = Except.ok tok)
    (hUaa : c.cf.apiEndpoint ≠ "")
    (hexUaa : ex c.cf.authenticationEndpoint c.cf.uaaRefreshToken
      = Except.ok tok) :
    RefreshIAMToken env ex c =
      (Except.ok tok.accessToken,
        { c with iamToken := tok.accessToken,
                 iamRefreshToken := tok.refreshToken }) ∧
    RefreshUAAToken ex c.cf =
      (Except.ok tok.accessToken,
        { c.cf with uaaToken := tok.accessToken,
                    uaaRefreshToken := tok.refreshToken }) := by
  constructor
  · simp [RefreshIAMToken, hIam, iamTokenExchange, hexIam]
  · simp [RefreshUAAToken, CFConfig.HasAPIEndpoint, hUaa, hexUaa]

/-- C4 witness: a successful exchange against the sample configuration
stores both new tokens and returns the new access token. -/
theorem refresh_success_updates_tokens_witness :
    RefreshIAMToken envEmpty exOk cfgSample
      = (Except.ok "newtok",
          { cfgSample with iamToken := "newtok", iamRefreshToken := "newref" }) ∧
    RefreshUAAToken exOk cfgSample.cf
      = (Except.ok "newtok",
          { cfgSample.cf with uaaToken := "newtok", uaaRefreshToken := "newref" }) :=
  refresh_success_updates_tokens envEmpty exOk cfgSample ⟨"newtok", "newref"⟩
    (by decide) rfl (by decide) rfl

/-- C5: with an empty CF API endpoint, `RefreshUAAToken` returns the
configuration error at once, independently of the exchange collaborator
(so without consulting it), and returns the configuration unchanged. -/
theorem refreshUAA_requires_endpoint (ex ex2 : Exchange) (c : CFConfig)
    (h : c.apiEndpoint = "") :
    RefreshUAAToken ex c =
      (Except.error (RefreshErr.config "CloudFoundry API endpoint is not set"), c) ∧
    RefreshUAAToken ex c = RefreshUAAToken ex2 c := by
  have hb : c.HasAPIEndpoint = false := by
    simp [CFConfig.HasAPIEndpoint, h]
  constructor <;> simp [RefreshUAAToken, hb]

/-- C5 witness: the sample endpoint-less CF configuration fails the same
way under the failing and the succeeding exchange. -/
theorem refreshUAA_requires_endpoint_witness :
    RefreshUAAToken exFail cfNoEndpoint =
      (Except.error (RefreshErr.config "CloudFoundry API endpoint is not set"),
        cfNoEndpoint) ∧
    RefreshUAAToken exFail cfNoEndpoint = RefreshUAAToken exOk cfNoEndpoint :=
  refreshUAA_requires_endpoint exFail exOk cfNoEndpoint rfl

/-- C6: `RefreshIAMToken` resolves its base endpoint preferring a
non-empty `IAM_ENDPOINT` environment value over the persisted IAM
endpoint, returns the configuration error exactly when both sources are
empty, and otherwise proceeds with the resolved base endpoint suffixed
with `"/identity/token"`. -/
theorem refreshIAM_endpoint_resolution (env : Env) (ex : Exchange)
    (c : CoreConfig) :
    (os_Getenv env "IAM_ENDPOINT" ≠ "" →
      resolveIAMEndpoint env c = os_Getenv env "IAM_ENDPOINT") ∧
    (os_Getenv env "IAM_ENDPOINT" = "" →
      resolveIAMEndpoint env c = c.iamEndpoint) ∧
    ((RefreshIAMToken env ex c).1
        = Except.error (RefreshErr.config "IAM endpoint is not set")
      ↔ (os_Getenv env "IAM_ENDPOINT" = "" ∧ c.iamEndpoint = "")) ∧
    (resolveIAMEndpoint env c ≠ "" →
      RefreshIAMToken env ex c
        = iamTokenExchange ex (resolveIAMEndpoint env c ++ "/identity/token") c) := by
  have hres : resolveIAMEndpoint env c = ""
      ↔ (os_Getenv env "IAM_ENDPOINT" = "" ∧ c.iamEndpoint = "") := by
    simp only [resolveIAMEndpoint]
    split <;> simp_all
  refine ⟨fun h => ?_, fun h => ?_, ?_, fun h => ?_⟩
  · simp [resolveIAMEndpoint, h]
  · simp [resolveIAMEndpoint, h]
  · rw [← hres]
    simp only [RefreshIAMToken]
    constructor
    · intro hcfg
      by_contra hne
      rw [if_neg hne] at hcfg
      unfold iamTokenExchange at hcfg
      cases hx : ex (resolveIAMEndpoint env c ++ "/identity/token")
          c.iamRefreshToken <;> simp [hx] at hcfg
    · intro he
      rw [if_pos he]
  · simp [RefreshIAMToken, h]

/-- C7: the environment override resolver returns the environment
variable's value when set non-empty, and the persisted value when the
variable is unset or set to the empty string; `Trace` and `ColorEnabled`
are this resolution against their fixed keys and persisted values. -/
theorem envOverride_spec (env : Env) (key cfg : String) (c : CoreConfig) :
    (os_Getenv env key ≠ "" → getFromEnvOrConfig env key cfg = os_Getenv env key) ∧
    (env key = none → getFromEnvOrConfig env key cfg = cfg) ∧
    (env key = some "" → getFromEnvOrConfig env key cfg = cfg) ∧
    (∀ v, v ≠ "" → env key = some v → getFromEnvOrConfig env key cfg = v) ∧
    pluginContext.Trace env c = getFromEnvOrConfig env ENV_BLUEMIX_TRACE c.trace ∧
    pluginContext.ColorEnabled env c
      = getFromEnvOrConfig env ENV_BLUEMIX_COLOR c.colorEnabled := by
  refine ⟨fun h => ?_, fun h => ?_, fun h => ?_, fun v hv h => ?_, rfl, rfl⟩
  · simp [getFromEnvOrConfig, h]
  · simp [getFromEnvOrConfig, os_Getenv, h]
  · simp [getFromEnvOrConfig, os_Getenv, h]
  · simp [getFromEnvOrConfig, os_Getenv, h, hv]

/-- C8: `HasAPIEndpoint` is true exactly when `APIEndpoint` is non-empty,
for the plugin context (where it goes through the version-gated
resolution) and for the CF-level context. -/
theorem hasAPIEndpoint_iff_nonempty (c : CoreConfig) :
    (pluginContext.HasAPIEndpoint c = true ↔ pluginContext.APIEndpoint c ≠ "") ∧
    (pluginContext.HasAPIEndpoint c = true ↔
      (if compareVersion c.sdkVersion "0.1.1" < 0
        then c.cf.apiEndpoint else c.apiEndpoint) ≠ "") ∧
    (CFConfig.HasAPIEndpoint c.cf = true ↔ CFConfig.APIEndpoint c.cf ≠ "") := by
  refine ⟨?_, ?_, ?_⟩ <;>
    simp [pluginContext.HasAPIEndpoint, pluginContext.APIEndpoint,
      CFConfig.HasAPIEndpoint, CFConfig.APIEndpoint]

/-- C9: a stored SDK version all of whose dot-separated segments are
non-numeric — the empty string included — compares strictly below
`"0.1.1"` (every segment parses as `0`), so `APIEndpoint` resolves to the
CF-scoped endpoint. -/
theorem apiEndpoint_nonnumeric_sdk (c : CoreConfig)
    (h : ∀ seg ∈ strings_Split c.sdkVersion '.', isNumericSeg seg = false) :
    compareVersion c.sdkVersion "0.1.1" < 0 ∧
    pluginContext.APIEndpoint c = c.cf.apiEndpoint := by
  have hlt := compareVersion_nonNumeric c.sdkVersion h
  exact ⟨hlt, by simp [pluginContext.APIEndpoint, CFConfig.APIEndpoint, hlt]⟩

/-- C9 witness: the empty SDK version string (whose single segment is
non-numeric) routes `APIEndpoint` to the CF-scoped value. -/
theorem apiEndpoint_nonnumeric_sdk_witness :
    pluginContext.APIEndpoint
        ⟨"plat", "", "iam.test", "", "", "", "", ⟨"cfapi", "", "", ""⟩⟩
      = "cfapi" :=
  (apiEndpoint_nonnumeric_sdk
    ⟨"plat", "", "iam.test", "", "", "", "", ⟨"cfapi", "", "", ""⟩⟩ (by decide)).2

/-- C10: `FullName` is the namespace and name joined by one space with
surrounding white space trimmed; `FullNames` is that single name when the
alias is empty and otherwise also the trimmed namespace-qualified alias;
the spec's concrete examples evaluate accordingly. -/
theorem command_fullNames_spec (c : Command) :
    c.FullName = strings_TrimSpace (c.Namespace ++ " " ++ c.Name) ∧
    (c.Alias = "" → c.FullNames = [c.FullName]) ∧
    (c.Alias ≠ "" →
      c.FullNames = [c.FullName, strings_TrimSpace (c.Namespace ++ " " ++ c.Alias)]) ∧
    Command.FullName ⟨"service plan", "create", "", "", "", [], false⟩
      = "service plan create" ∧
    Command.FullName ⟨"", "login", "", "", "", [], false⟩ = "login" ∧
    Command.FullNames ⟨"", "login", "l", "", "", [], false⟩ = ["login", "l"] ∧
    Command.FullNames ⟨"", "login", "", "", "", [], false⟩ = ["login"] := by
  refine ⟨rfl, fun h => ?_, fun h => ?_, by decide, by decide, by decide, by decide⟩
  · simp [Command.FullNames, h]
  · simp [Command.FullNames, h]
    rfl

end Plugin
